import Mathlib

-- Verification of the multi-vendor data fetch service's job orchestration core:
-- the response sanitizer, the fixed-window rate limiter, the job store update
-- discipline, the orchestration task and the webhook ingress, embedded from
-- app/tasks.py, app/database.py and app/main.py.

set_option maxHeartbeats 1000000

namespace MultiVendor

-- JSON-like values carried in payloads and provider responses.
-- `atom` stands for any scalar that is neither a string nor a container
-- (numbers, booleans, null); clean_vendor_response passes those through
-- unchanged, so one opaque integer-indexed constructor is faithful.
inductive PyVal where
  | str : String → PyVal
  | atom : Int → PyVal
  | dict : List (String × PyVal) → PyVal
  | list : List PyVal → PyVal

abbrev PyDict := List (String × PyVal)

-- Whitespace characters stripped by Python's str.strip().
def isPySpace (c : Char) : Bool :=
  c = ' ' || c = '\t' || c = '\n' || c = '\r' || c = '\x0b' || c = '\x0c'

-- List-level strip: drop leading whitespace, then trailing whitespace.
def stripChars (l : List Char) : List Char :=
  ((l.dropWhile isPySpace).reverse.dropWhile isPySpace).reverse

-- value.strip() from tasks.py clean_vendor_response.
def pyStrip (s : String) : String :=
  String.mk (stripChars s.toList)

-- The sensitive-field name fragments from tasks.py line 54.
def piiFragments : List String := ["email", "phone", "ssn", "password"]

-- Python's `pat in s` substring test, on character lists.
def infixOfChars (pat : List Char) : List Char → Bool
  | [] => pat.isEmpty
  | c :: rest => pat.isPrefixOf (c :: rest) || infixOfChars pat rest

-- key.lower(): Lean's String.toLower is List.map Char.toLower on the
-- underlying characters; written that way here so that terms reduce.
def lowerChars (l : List Char) : List Char := l.map Char.toLower

-- any(pii in key.lower() for pii in ["email", "phone", "ssn", "password"])
def isSensitiveKey (key : String) : Bool :=
  piiFragments.any (fun pii => infixOfChars pii.toList (lowerChars key.toList))

mutual

-- clean_vendor_response(data: dict) from tasks.py: iterates the items in
-- order, cleaning each value according to its key.
def clean_vendor_response : PyDict → PyDict
  | [] => []
  | (key, v) :: rest => (key, cleanEntry key v) :: clean_vendor_response rest
termination_by structural d => d

-- The per-item body of the loop: strings are stripped and redacted under
-- sensitive keys, dicts recurse, lists clean their dict elements, every
-- other value is stored unchanged.
def cleanEntry (key : String) : PyVal → PyVal
  | .str s => if isSensitiveKey key then .str "[REDACTED]" else .str (pyStrip s)
  | .dict d => .dict (clean_vendor_response d)
  | .list items => .list (cleanListItems items)
  | .atom n => .atom n
termination_by structural v => v

-- [clean_vendor_response(item) if isinstance(item, dict) else item for item in value]
def cleanListItems : List PyVal → List PyVal
  | [] => []
  | .dict d :: rest => .dict (clean_vendor_response d) :: cleanListItems rest
  | .str s :: rest => .str s :: cleanListItems rest
  | .atom n :: rest => .atom n :: cleanListItems rest
  | .list l :: rest => .list l :: cleanListItems rest
termination_by structural l => l

end

-- Positions the sanitizer actually visits: the top-level dict, dict values
-- (recursively), and dict elements sitting directly inside a list value.
-- The code's list comprehension leaves any other list element unchanged,
-- so lists nested inside lists are not descended into; the predicate below
-- mirrors exactly the visited positions.  At every visited entry it demands
-- that a string value under a sensitive key is the redaction marker.
mutual

def noSensStr : PyDict → Bool
  | [] => true
  | (key, v) :: rest => noSensStrEntry key v && noSensStr rest
termination_by structural d => d

def noSensStrEntry (key : String) : PyVal → Bool
  | .str s => !isSensitiveKey key || (s == "[REDACTED]")
  | .dict d => noSensStr d
  | .list items => noSensStrList items
  | .atom _ => true
termination_by structural v => v

def noSensStrList : List PyVal → Bool
  | [] => true
  | .dict d :: rest => noSensStr d && noSensStrList rest
  | .str _ :: rest => noSensStrList rest
  | .atom _ :: rest => noSensStrList rest
  | .list _ :: rest => noSensStrList rest
termination_by structural l => l

end

-- Key-structure agreement between an input and its sanitized output: same
-- keys in the same order at every dict level, lists kept the same length
-- with elementwise structure agreement, scalars unconstrained.
mutual

def keyStructEq : PyDict → PyDict → Bool
  | [], [] => true
  | (k₁, v₁) :: r₁, (k₂, v₂) :: r₂ => (k₁ == k₂) && valStructEq v₁ v₂ && keyStructEq r₁ r₂
  | _, _ => false
termination_by structural d => d

def valStructEq : PyVal → PyVal → Bool
  | .dict d₁, .dict d₂ => keyStructEq d₁ d₂
  | .list l₁, .list l₂ => listStructEq l₁ l₂
  | .dict _, _ => false
  | _, .dict _ => false
  | .list _, _ => false
  | _, .list _ => false
  | _, _ => true
termination_by structural v => v

def listStructEq : List PyVal → List PyVal → Bool
  | [], [] => true
  | v₁ :: r₁, v₂ :: r₂ => valStructEq v₁ v₂ && listStructEq r₁ r₂
  | _, _ => false
termination_by structural l => l

end

-- ------------------------------------------------------------------
-- Rate limiter (tasks.py): rate_limit_storage, check_rate_limit,
-- update_rate_limit.  Wall-clock instants are rationals (time.time()
-- returns a real-valued number); int(time.time()) is the floor for the
-- nonnegative values the clock produces.
-- ------------------------------------------------------------------

structure RateState where
  last_request : ℚ
  requests_this_minute : Nat
deriving DecidableEq

-- rate_limit_storage starts each vendor at {"last_request": 0,
-- "requests_this_minute": 0}.
def initialRateState : RateState := RateState.mk 0 0

-- The first half of check_rate_limit: reset the counter if more than a
-- minute has passed since the last recorded request (a mutation of the
-- shared storage performed by the check itself).
def resetIfStale (t : ℚ) (st : RateState) : RateState :=
  if st.last_request < t - 60 then RateState.mk st.last_request 0 else st

-- check_rate_limit: after the possible reset, admission is granted iff
-- the counter is still below the limit.  Returns the verdict together
-- with the (possibly reset) storage.
def check_rate_limit (t : ℚ) (rate_limit : Nat) (st : RateState) : Bool × RateState :=
  if (resetIfStale t st).requests_this_minute ≥ rate_limit then (false, resetIfStale t st)
  else (true, resetIfStale t st)

-- update_rate_limit: record the admission, stamping int(time.time()).
def update_rate_limit (t : ℚ) (st : RateState) : RateState :=
  RateState.mk ((⌊t⌋ : ℤ) : ℚ) (st.requests_this_minute + 1)

-- One pass of the orchestrator's admission discipline (process_job lines
-- 91-96): consult check_rate_limit and record the admission only when the
-- check succeeds; a denial leaves the counter untouched (the task sleeps
-- and retries).
def tryAcquire (t : ℚ) (rate_limit : Nat) (st : RateState) : Bool × RateState :=
  if (check_rate_limit t rate_limit st).1 then
    (true, update_rate_limit t (check_rate_limit t rate_limit st).2)
  else (false, (check_rate_limit t rate_limit st).2)

-- k admission attempts in a row, all at instant t.
def iterAcquire (t : ℚ) (rate_limit : Nat) : Nat → RateState → RateState
  | 0, st => st
  | k + 1, st => (tryAcquire t rate_limit (iterAcquire t rate_limit k st)).2

-- ------------------------------------------------------------------
-- Interleaved check/admission sequences, for the counter-bound invariant.
-- An admission (acquire) records itself only after a successful check,
-- exactly as in process_job's admission loop.
-- ------------------------------------------------------------------

inductive RLOp where
  | check (t : ℚ)
  | acquire (t : ℚ)

def runRLOp (rate_limit : Nat) (st : RateState) : RLOp → RateState
  | .check t => (check_rate_limit t rate_limit st).2
  | .acquire t => (tryAcquire t rate_limit st).2

def runRLOps (rate_limit : Nat) (ops : List RLOp) (st : RateState) : RateState :=
  ops.foldl (runRLOp rate_limit) st

-- ------------------------------------------------------------------
-- Job store and orchestration: models.py JobStatus/VendorType/JobDocument,
-- database.py DatabaseManager, tasks.py process_job/handle_vendor_webhook,
-- main.py create_job/vendor_webhook.  Timestamps are abstract ticks; the
-- store is the jobs collection in insertion order.
-- ------------------------------------------------------------------

inductive JobStatus where
  | pending
  | processing
  | complete
  | failed
deriving DecidableEq

inductive VendorType where
  | sync
  | async
deriving DecidableEq

structure JobDocument where
  request_id : String
  status : JobStatus
  payload : PyDict
  result : Option PyDict
  error : Option String
  vendor_type : Option VendorType
  vendor_response_id : Option String
  created_at : Nat
  updated_at : Nat

abbrev JobDB := List JobDocument

-- The Mongo filter {"request_id": tok}: a stored string field equals the
-- filter value only when the value is the same string; values of any other
-- BSON type never match a string field.
def docMatches (tok : PyVal) (j : JobDocument) : Bool :=
  match tok with
  | .str s => j.request_id == s
  | _ => false

-- An update_one $set document: exactly the field combinations the service
-- ever writes (database.py always adds updated_at itself).
structure JobUpdate where
  status : Option JobStatus
  result : Option PyDict
  error : Option String
  vendor_type : Option VendorType
  vendor_response_id : Option (Option String)

def updStatus (s : JobStatus) : JobUpdate := JobUpdate.mk (some s) none none none none

def updVendorType (vt : VendorType) : JobUpdate := JobUpdate.mk none none none (some vt) none

-- {"status": COMPLETE, "result": cleaned_response}
def updComplete (r : PyDict) : JobUpdate := JobUpdate.mk (some .complete) (some r) none none none

-- {"vendor_response_id": response.get("response_id"), "status": PROCESSING}
def updAsyncAck (ack : Option String) : JobUpdate :=
  JobUpdate.mk (some .processing) none none none (some ack)

-- {"status": FAILED, "error": str(e)}
def updFailed (msg : String) : JobUpdate := JobUpdate.mk (some .failed) none (some msg) none none

-- $set semantics on one document: provided fields overwrite, absent fields
-- survive; updated_at is always stamped (database.py update_job line 66).
def applyUpdate (j : JobDocument) (u : JobUpdate) (now : Nat) : JobDocument :=
  JobDocument.mk j.request_id
    (match u.status with | some s => s | none => j.status)
    j.payload
    (match u.result with | some r => some r | none => j.result)
    (match u.error with | some e => some e | none => j.error)
    (match u.vendor_type with | some v => some v | none => j.vendor_type)
    (match u.vendor_response_id with | some r => r | none => j.vendor_response_id)
    j.created_at
    now

-- Mongo update_one with a $set document: the first matching document is
-- rewritten, no document is inserted, and the returned flag reports whether
-- anything was modified.
def update_one : JobDB → PyVal → JobUpdate → Nat → JobDB × Bool
  | [], _, _, _ => ([], false)
  | j :: rest, tok, u, now =>
    if docMatches tok j then (applyUpdate j u now :: rest, true)
    else
      let r := update_one rest tok u now
      (j :: r.1, r.2)

-- Exceptions that can cross the orchestration code.  str(e), as recorded
-- by the except clauses, is carried as the constructor's text (the exact
-- pydantic message wording is immaterial: it is never stored).
inductive PyError where
  | validationError (msg : String)
  | providerError (msg : String)
deriving DecidableEq

def errText : PyError → String
  | .validationError msg => msg
  | .providerError msg => msg

-- pydantic construction JobDocument(request_id=..., payload=...): in
-- models.py every field carries a value, a default or a default_factory
-- except payload, so validation succeeds iff a payload argument is
-- supplied; JobDocument() raises ValidationError.
def jobDocumentNew (request_id : Option String) (payload : Option PyDict)
    (default_id : String) (now : Nat) : Except PyError JobDocument :=
  match payload with
  | none => .error (.validationError "payload: field required")
  | some p =>
    .ok (JobDocument.mk (match request_id with | some r => r | none => default_id)
          JobStatus.pending p none none none none now now)

-- DatabaseManager.update_job: line 67 stamps
-- update_data["updated_at"] = JobDocument().updated_at before update_one.
-- JobDocument() supplies no payload, so the stamp itself raises
-- ValidationError and the except clause re-raises: update_one is never
-- reached and no document is ever modified by this method.
def update_job (db : JobDB) (tok : PyVal) (u : JobUpdate) (now : Nat) :
    Except PyError (JobDB × Bool) :=
  match jobDocumentNew none none "" now with
  | .error e => .error e
  | .ok stamp => .ok (update_one db tok u stamp.updated_at)

-- DatabaseManager.get_job: find_one by request_id.
def get_job (db : JobDB) (rid : String) : Option JobDocument :=
  db.find? (docMatches (.str rid))

-- The vendor call outcome seen by process_job: a synchronous full response,
-- an asynchronous submission acknowledgment (whose response_id field may be
-- missing), or an exception carrying str(e).
inductive CallResult where
  | syncSuccess (response : PyDict)
  | asyncSuccess (response_id : Option String)
  | callError (msg : String)

-- The shared except clause of both Celery tasks: attempt a FAILED write
-- recording str(e); if that write itself raises, `except: pass` swallows
-- it; either way the original exception is re-raised to the worker.
-- Returns the resulting store and the exception the task re-raised.
def failPath (db : JobDB) (tok : PyVal) (e : PyError) (tf : Nat) :
    JobDB × Option PyError :=
  match update_job db tok (updFailed (errText e)) tf with
  | .error _ => (db, some e)
  | .ok (db', _) => (db', some e)

-- tasks.py process_job, for one enqueued job.  The try block runs, in
-- order: the PROCESSING status write, the vendor_type write, the vendor
-- call and its finalizing write (COMPLETE with the sanitized response on
-- the sync path, the acknowledgment write that stays PROCESSING on the
-- async path); any exception lands in the except clause (failPath above)
-- and is re-raised to the Celery worker, never to the intake caller.
-- The rate-limit wait loop only delays execution and touches the limiter
-- storage modelled above, not the job store.  Returns the resulting store
-- and the exception the task re-raised, if any.
def process_job (db : JobDB) (request_id : String) (vt : VendorType)
    (res : CallResult) (t1 t2 t3 tf : Nat) : JobDB × Option PyError :=
  match update_job db (.str request_id) (updStatus .processing) t1 with
  | .error e => failPath db (.str request_id) e tf
  | .ok (db1, _) =>
    match update_job db1 (.str request_id) (updVendorType vt) t2 with
    | .error e => failPath db1 (.str request_id) e tf
    | .ok (db2, _) =>
      match res with
      | .syncSuccess response =>
        match update_job db2 (.str request_id)
            (updComplete (clean_vendor_response response)) t3 with
        | .error e => failPath db2 (.str request_id) e tf
        | .ok (db3, _) => (db3, none)
      | .asyncSuccess ack =>
        match update_job db2 (.str request_id) (updAsyncAck ack) t3 with
        | .error e => failPath db2 (.str request_id) e tf
        | .ok (db3, _) => (db3, none)
      | .callError msg =>
        failPath db2 (.str request_id) (.providerError msg) tf

-- tasks.py handle_vendor_webhook: sanitize the delivered payload and write
-- {"status": COMPLETE, "result": cleaned} against the given identifier,
-- unconditionally; its except clause mirrors process_job's.
def handle_vendor_webhook (db : JobDB) (request_id : PyVal) (vendor_data : PyDict)
    (t tf : Nat) : JobDB × Option PyError :=
  match update_job db request_id (updComplete (clean_vendor_response vendor_data)) t with
  | .error e => failPath db request_id e tf
  | .ok (db', _) => (db', none)

-- Python truthiness of webhook_data.data.get("response_id").
def pyFalsy : Option PyVal → Bool
  | none => true
  | some (.str s) => s == ""
  | some (.atom n) => n == 0
  | some (.dict d) => d.isEmpty
  | some (.list l) => l.isEmpty

def dictGet (d : PyDict) (k : String) : Option PyVal :=
  match d.find? (fun kv => kv.1 == k) with
  | some kv => some kv.2
  | none => none

inductive WebhookIngress where
  | accepted
  | badRequest
deriving DecidableEq

-- main.py vendor_webhook: reject with 400 when data["response_id"] is
-- missing or falsy; otherwise use the token itself as the request_id
-- ("For this demo, we'll assume the response_id is the request_id"),
-- dispatch handle_vendor_webhook to the queue — whose exception, if any,
-- surfaces only in the worker — and answer {"status": "accepted"}.
-- Returns the ingress answer and the store after the dispatched task ran.
def vendor_webhook (db : JobDB) (data : PyDict) (t tf : Nat) : WebhookIngress × JobDB :=
  if pyFalsy (dictGet data "response_id") then (.badRequest, db)
  else
    match dictGet data "response_id" with
    | some v => (.accepted, (handle_vendor_webhook db v data t tf).1)
    | none => (.badRequest, db)

-- main.py create_job: persist a fresh PENDING JobDocument — here the
-- pydantic construction receives both request_id and payload, so it
-- validates — and return the request_id to the caller before any
-- orchestration runs.
def create_job_endpoint (db : JobDB) (request_id : String) (payload : PyDict)
    (t : Nat) : JobDB × String :=
  match jobDocumentNew (some request_id) (some payload) request_id t with
  | .ok j => (db ++ [j], request_id)
  | .error _ => (db, request_id)

-- Does the callback token equal a job's stored correlation token
-- (vendor_response_id)?  This is the lookup the spec prescribes; the code
-- never performs it (C2), but claim C7 quantifies over tokens for which
-- it fails everywhere.
def corrTokenMatches (tok : PyVal) (j : JobDocument) : Bool :=
  match tok with
  | .str s => j.vendor_response_id == some s
  | _ => false

-- One externally triggerable step against the job store: an intake
-- creation, an enqueued orchestration run, or a webhook delivery (ingress
-- plus its dispatched task).
inductive SysOp where
  | create (rid : String) (payload : PyDict) (t : Nat)
  | runJob (rid : String) (vt : VendorType) (res : CallResult) (t1 t2 t3 tf : Nat)
  | deliver (data : PyDict) (t tf : Nat)

def runSysOp (db : JobDB) : SysOp → JobDB
  | .create rid payload t => (create_job_endpoint db rid payload t).1
  | .runJob rid vt res t1 t2 t3 tf => (process_job db rid vt res t1 t2 t3 tf).1
  | .deliver data t tf => (vendor_webhook db data t tf).2

def runSysOps (ops : List SysOp) (db : JobDB) : JobDB :=
  ops.foldl runSysOp db

-- The steps of claim C1's "orchestration and webhook steps": everything
-- except intake creation.
def isOrchStep : SysOp → Bool
  | .create _ _ _ => false
  | .runJob _ _ _ _ _ _ _ => true
  | .deliver _ _ _ => true

-- result/error discipline of a job record: never both populated, and both
-- absent in the non-terminal statuses.
def resultErrorOk (j : JobDocument) : Bool :=
  !(j.result.isSome && j.error.isSome) &&
  (match j.status with
   | .pending => j.result.isNone && j.error.isNone
   | .processing => j.result.isNone && j.error.isNone
   | .complete => true
   | .failed => true)

-- Auxiliary facts about dropWhile, for idempotence of pyStrip.

theorem dropWhile_self_idem {α : Type} (p : α → Bool) (l : List α) :
    (l.dropWhile p).dropWhile p = l.dropWhile p := by
  induction l with
  | nil => rfl
  | cons a l ih =>
    by_cases h : p a
    · simp [List.dropWhile_cons, h, ih]
    · simp [List.dropWhile_cons, h]

theorem dropWhile_head_false {α : Type} (p : α → Bool) (l : List α) :
    ∀ a as, l.dropWhile p = a :: as → p a = false := by
  induction l with
  | nil => intro a as h; simp at h
  | cons b l ih =>
    intro a as h
    by_cases hb : p b
    · rw [List.dropWhile_cons] at h
      simp only [hb, if_true] at h
      exact ih a as h
    · rw [List.dropWhile_cons] at h
      simp only [hb, if_false] at h
      obtain ⟨h1, _⟩ := List.cons.inj h
      rw [h1] at hb
      simpa using hb

theorem dropWhile_exists_prepend {α : Type} (p : α → Bool) (l : List α) :
    ∃ t, t ++ l.dropWhile p = l := by
  induction l with
  | nil => exact ⟨[], rfl⟩
  | cons a l ih =>
    by_cases h : p a
    · obtain ⟨t, ht⟩ := ih
      exact ⟨a :: t, by simp [List.dropWhile_cons, h, ht]⟩
    · exact ⟨[], by simp [List.dropWhile_cons, h]⟩

theorem stripChars_head_false (l : List Char) (a : Char) (as : List Char)
    (h : stripChars l = a :: as) : isPySpace a = false := by
  obtain ⟨t, ht⟩ :=
    dropWhile_exists_prepend isPySpace (l.dropWhile isPySpace).reverse
  have hm : l.dropWhile isPySpace = stripChars l ++ t.reverse := by
    have h2 := congrArg List.reverse ht
    simp only [List.reverse_append, List.reverse_reverse] at h2
    rw [stripChars]
    exact h2.symm
  have hbs : l.dropWhile isPySpace = a :: (as ++ t.reverse) := by
    rw [hm, h]; rfl
  exact dropWhile_head_false isPySpace l a _ hbs

theorem dropWhile_stripChars (l : List Char) :
    (stripChars l).dropWhile isPySpace = stripChars l := by
  cases h : stripChars l with
  | nil => simp
  | cons a as =>
    have ha := stripChars_head_false l a as h
    simp [List.dropWhile_cons, ha]

theorem stripChars_idem (l : List Char) : stripChars (stripChars l) = stripChars l := by
  conv_lhs => rw [stripChars, dropWhile_stripChars]
  have h1 : (stripChars l).reverse = (l.dropWhile isPySpace).reverse.dropWhile isPySpace := by
    simp [stripChars]
  rw [h1, dropWhile_self_idem]
  simp [stripChars]

theorem pyStrip_idem (s : String) : pyStrip (pyStrip s) = pyStrip s := by
  have h : (pyStrip s).toList = stripChars s.toList := rfl
  show String.mk (stripChars (pyStrip s).toList) = pyStrip s
  rw [h, stripChars_idem]
  rfl

-- A redacted or stripped string entry is a fixed point of the entry cleaner.
theorem cleanEntry_str_idem (key : String) (s : String) :
    cleanEntry key (cleanEntry key (.str s)) = cleanEntry key (.str s) := by
  by_cases h : isSensitiveKey key
  · simp [cleanEntry, h]
  · simp [cleanEntry, h, pyStrip_idem]

mutual

theorem clean_idem_dict (d : PyDict) :
    clean_vendor_response (clean_vendor_response d) = clean_vendor_response d := by
  match d with
  | [] => rfl
  | (key, v) :: rest =>
    simp only [clean_vendor_response]
    rw [clean_idem_entry key v, clean_idem_dict rest]
termination_by sizeOf d

theorem clean_idem_entry (key : String) (v : PyVal) :
    cleanEntry key (cleanEntry key v) = cleanEntry key v := by
  match v with
  | .str s => exact cleanEntry_str_idem key s
  | .dict d =>
    simp only [cleanEntry]
    rw [clean_idem_dict d]
  | .list items =>
    simp only [cleanEntry]
    rw [clean_idem_list items]
  | .atom n => rfl
termination_by sizeOf v

theorem clean_idem_list (l : List PyVal) :
    cleanListItems (cleanListItems l) = cleanListItems l := by
  match l with
  | [] => rfl
  | .dict d :: rest =>
    simp only [cleanListItems]
    rw [clean_idem_dict d, clean_idem_list rest]
  | .str s :: rest =>
    simp only [cleanListItems]
    rw [clean_idem_list rest]
  | .atom n :: rest =>
    simp only [cleanListItems]
    rw [clean_idem_list rest]
  | .list m :: rest =>
    simp only [cleanListItems]
    rw [clean_idem_list rest]
termination_by sizeOf l

end

mutual

theorem clean_noSensStr_dict (d : PyDict) : noSensStr (clean_vendor_response d) = true := by
  match d with
  | [] => rfl
  | (key, v) :: rest =>
    simp only [clean_vendor_response, noSensStr]
    rw [clean_noSensStr_entry key v, clean_noSensStr_dict rest]
    rfl
termination_by sizeOf d

theorem clean_noSensStr_entry (key : String) (v : PyVal) :
    noSensStrEntry key (cleanEntry key v) = true := by
  match v with
  | .str s =>
    by_cases h : isSensitiveKey key
    · simp [cleanEntry, noSensStrEntry, h]
    · simp [cleanEntry, noSensStrEntry, h]
  | .dict d =>
    simp only [cleanEntry, noSensStrEntry]
    exact clean_noSensStr_dict d
  | .list items =>
    simp only [cleanEntry, noSensStrEntry]
    exact clean_noSensStr_list items
  | .atom n => rfl
termination_by sizeOf v

theorem clean_noSensStr_list (l : List PyVal) : noSensStrList (cleanListItems l) = true := by
  match l with
  | [] => rfl
  | .dict d :: rest =>
    simp only [cleanListItems, noSensStrList]
    rw [clean_noSensStr_dict d, clean_noSensStr_list rest]
    rfl
  | .str s :: rest =>
    simp only [cleanListItems, noSensStrList]
    exact clean_noSensStr_list rest
  | .atom n :: rest =>
    simp only [cleanListItems, noSensStrList]
    exact clean_noSensStr_list rest
  | .list m :: rest =>
    simp only [cleanListItems, noSensStrList]
    exact clean_noSensStr_list rest
termination_by sizeOf l

end

mutual

theorem valStructEq_refl (v : PyVal) : valStructEq v v = true := by
  match v with
  | .str s => rfl
  | .atom n => rfl
  | .dict d => exact keyStructEq_refl d
  | .list l => exact listStructEq_refl l
termination_by sizeOf v

theorem keyStructEq_refl (d : PyDict) : keyStructEq d d = true := by
  match d with
  | [] => rfl
  | (k, v) :: rest =>
    simp only [keyStructEq]
    rw [valStructEq_refl v, keyStructEq_refl rest]
    simp
termination_by sizeOf d

theorem listStructEq_refl (l : List PyVal) : listStructEq l l = true := by
  match l with
  | [] => rfl
  | v :: rest =>
    simp only [listStructEq]
    rw [valStructEq_refl v, listStructEq_refl rest]
    rfl
termination_by sizeOf l

end

mutual

theorem clean_structEq_dict (d : PyDict) : keyStructEq d (clean_vendor_response d) = true := by
  match d with
  | [] => rfl
  | (key, v) :: rest =>
    simp only [clean_vendor_response, keyStructEq]
    rw [clean_structEq_entry key v, clean_structEq_dict rest]
    simp
termination_by sizeOf d

theorem clean_structEq_entry (key : String) (v : PyVal) :
    valStructEq v (cleanEntry key v) = true := by
  match v with
  | .str s =>
    by_cases h : isSensitiveKey key
    · rw [show cleanEntry key (.str s) = .str "[REDACTED]" from by simp [cleanEntry, h]]
      rfl
    · rw [show cleanEntry key (.str s) = .str (pyStrip s) from by simp [cleanEntry, h]]
      rfl
  | .dict d =>
    simp only [cleanEntry, valStructEq]
    exact clean_structEq_dict d
  | .list items =>
    simp only [cleanEntry, valStructEq]
    exact clean_structEq_list items
  | .atom n => rfl
termination_by sizeOf v

theorem clean_structEq_list (l : List PyVal) : listStructEq l (cleanListItems l) = true := by
  match l with
  | [] => rfl
  | .dict d :: rest =>
    simp only [cleanListItems, listStructEq, valStructEq]
    rw [clean_structEq_dict d, clean_structEq_list rest]
    rfl
  | .str s :: rest =>
    simp only [cleanListItems, listStructEq, valStructEq]
    rw [clean_structEq_list rest]
    rfl
  | .atom n :: rest =>
    simp only [cleanListItems, listStructEq, valStructEq]
    rw [clean_structEq_list rest]
    rfl
  | .list m :: rest =>
    simp only [cleanListItems, listStructEq, valStructEq]
    rw [listStructEq_refl m, clean_structEq_list rest]
    rfl
termination_by sizeOf l

end

theorem check_snd (t : ℚ) (rate_limit : Nat) (st : RateState) :
    (check_rate_limit t rate_limit st).2 = resetIfStale t st := by
  unfold check_rate_limit
  split <;> rfl

theorem check_fst (t : ℚ) (rate_limit : Nat) (st : RateState) :
    (check_rate_limit t rate_limit st).1 =
      decide ((resetIfStale t st).requests_this_minute < rate_limit) := by
  unfold check_rate_limit
  split
  · rename_i h
    simp
    omega
  · rename_i h
    simp
    omega

-- time.time() never runs 60 seconds behind the instant just written by
-- update_rate_limit, so a second attempt at the same instant never resets.
theorem no_reset_at_floor (t : ℚ) (c : Nat) :
    resetIfStale t (RateState.mk ((⌊t⌋ : ℤ) : ℚ) c) = RateState.mk ((⌊t⌋ : ℤ) : ℚ) c := by
  unfold resetIfStale
  have h := Int.lt_floor_add_one t
  rw [if_neg]
  simp only
  intro hlt
  linarith

theorem resetIfStale_initial (t : ℚ) : resetIfStale t initialRateState = initialRateState := by
  unfold resetIfStale initialRateState
  split <;> rfl

-- After k ≥ 1 granted attempts at instant t from a clean state, the storage
-- holds ⌊t⌋ and the count k.
theorem iterAcquire_char (t : ℚ) (N : Nat) :
    ∀ k, k + 1 ≤ N →
      iterAcquire t N (k + 1) initialRateState = RateState.mk ((⌊t⌋ : ℤ) : ℚ) (k + 1) := by
  intro k
  induction k with
  | zero =>
    intro hk
    show (tryAcquire t N initialRateState).2 = _
    unfold tryAcquire
    rw [check_fst, check_snd, resetIfStale_initial]
    rw [if_pos (by simp only [initialRateState]; simp; omega)]
    rfl
  | succ j ih =>
    intro hk
    have hj : j + 1 ≤ N := by omega
    show (tryAcquire t N (iterAcquire t N (j + 1) initialRateState)).2 = _
    rw [ih hj]
    unfold tryAcquire
    rw [check_fst, check_snd, no_reset_at_floor]
    rw [if_pos (by simp; omega)]
    rfl

-- Every attempt with the counter still below the quota is granted.
theorem tryAcquire_granted (t : ℚ) (N k : Nat) (hk : k < N) :
    (tryAcquire t N (iterAcquire t N k initialRateState)).1 = true := by
  match k with
  | 0 =>
    show (tryAcquire t N initialRateState).1 = true
    unfold tryAcquire
    rw [check_fst, resetIfStale_initial]
    rw [if_pos (by simp only [initialRateState]; simp; omega)]
  | j + 1 =>
    rw [iterAcquire_char t N j (by omega)]
    unfold tryAcquire
    rw [check_fst, no_reset_at_floor]
    rw [if_pos (by simp; omega)]

-- A denied attempt leaves the storage untouched, so the denial repeats at
-- every instant up to 60 seconds past the recorded last request.
theorem tryAcquire_denied (t' : ℚ) (N : Nat) (L : ℚ) (c : Nat)
    (h : t' ≤ L + 60) (hc : N ≤ c) :
    tryAcquire t' N (RateState.mk L c) = (false, RateState.mk L c) := by
  have hreset : resetIfStale t' (RateState.mk L c) = RateState.mk L c := by
    unfold resetIfStale
    rw [if_neg]
    simp only
    intro hlt
    linarith
  unfold tryAcquire
  rw [check_fst, check_snd, hreset]
  rw [if_neg (by simp; omega)]

-- Once the window has aged out, the check resets the counter and the next
-- attempt is granted again.
theorem tryAcquire_after_roll (t'' : ℚ) (N : Nat) (L : ℚ) (c : Nat)
    (hN : 0 < N) (h : L + 60 < t'') :
    (tryAcquire t'' N (RateState.mk L c)).1 = true := by
  have hreset : resetIfStale t'' (RateState.mk L c) = RateState.mk L 0 := by
    unfold resetIfStale
    rw [if_pos]
    simp only
    linarith
  unfold tryAcquire
  rw [check_fst, hreset]
  rw [if_pos (by simp; omega)]

theorem resetIfStale_count_le (t : ℚ) (st : RateState) (limit : Nat)
    (h : st.requests_this_minute ≤ limit) :
    (resetIfStale t st).requests_this_minute ≤ limit := by
  unfold resetIfStale
  split
  · simp
  · exact h

theorem runRLOp_bound (limit : Nat) (op : RLOp) (st : RateState)
    (h : st.requests_this_minute ≤ limit) :
    (runRLOp limit st op).requests_this_minute ≤ limit := by
  cases op with
  | check t =>
    show (check_rate_limit t limit st).2.requests_this_minute ≤ limit
    rw [check_snd]
    exact resetIfStale_count_le t st limit h
  | acquire t =>
    show (tryAcquire t limit st).2.requests_this_minute ≤ limit
    unfold tryAcquire
    by_cases hc : (check_rate_limit t limit st).1 = true
    · rw [if_pos hc]
      rw [check_fst] at hc
      simp at hc
      rw [check_snd]
      show (update_rate_limit t (resetIfStale t st)).requests_this_minute ≤ limit
      unfold update_rate_limit
      simp only
      omega
    · rw [if_neg hc]
      rw [check_snd]
      exact resetIfStale_count_le t st limit h

theorem runRLOps_bound (limit : Nat) (ops : List RLOp) :
    ∀ st : RateState, st.requests_this_minute ≤ limit →
      (runRLOps limit ops st).requests_this_minute ≤ limit := by
  induction ops with
  | nil => intro st h; exact h
  | cons op rest ih =>
    intro st h
    show (List.foldl (runRLOp limit) st (op :: rest)).requests_this_minute ≤ limit
    rw [List.foldl_cons]
    exact ih (runRLOp limit st op) (runRLOp_bound limit op st h)

-- Every call to DatabaseManager.update_job raises at the updated_at stamp
-- (database.py line 67): JobDocument() lacks the required payload.
theorem update_job_raises (db : JobDB) (tok : PyVal) (u : JobUpdate) (now : Nat) :
    update_job db tok u now = .error (.validationError "payload: field required") := rfl

-- Consequently a whole orchestration run leaves the store untouched and
-- re-raises the ValidationError: the very first (PROCESSING) write raises,
-- the except clause's FAILED write raises too and is swallowed, and the
-- vendor is never even called.
theorem process_job_result (db : JobDB) (rid : String) (vt : VendorType)
    (res : CallResult) (t1 t2 t3 tf : Nat) :
    process_job db rid vt res t1 t2 t3 tf
      = (db, some (.validationError "payload: field required")) := rfl

-- Likewise the webhook task: the COMPLETE write raises, the FAILED write
-- raises and is swallowed, the store is untouched.
theorem handle_vendor_webhook_result (db : JobDB) (tok : PyVal) (data : PyDict)
    (t tf : Nat) :
    handle_vendor_webhook db tok data t tf
      = (db, some (.validationError "payload: field required")) := rfl

-- The webhook ingress never changes the store, whatever the payload.
theorem vendor_webhook_store (db : JobDB) (data : PyDict) (t tf : Nat) :
    (vendor_webhook db data t tf).2 = db := by
  unfold vendor_webhook
  split
  · rfl
  · split <;> rfl

-- Every record reachable from the empty store through creations,
-- orchestration runs and webhook deliveries is the pristine intake
-- document: PENDING, no result, no error — since no update ever lands.
theorem runSysOps_pristine (ops : List SysOp) :
    ∀ db : JobDB,
      (∀ j ∈ db, j.result = none ∧ j.error = none ∧ j.status = JobStatus.pending) →
      ∀ j ∈ runSysOps ops db,
        j.result = none ∧ j.error = none ∧ j.status = JobStatus.pending := by
  induction ops with
  | nil => intro db h; exact h
  | cons op rest ih =>
    intro db h
    show ∀ j ∈ runSysOps rest (runSysOp db op), _
    apply ih
    cases op with
    | create rid payload t =>
      intro j hj
      have hj2 : j ∈ db ++ [JobDocument.mk rid JobStatus.pending payload
          none none none none t t] := hj
      rcases List.mem_append.mp hj2 with hL | hR
      · exact h j hL
      · have := List.mem_singleton.mp hR
        subst this
        exact ⟨rfl, rfl, rfl⟩
    | runJob rid vt res t1 t2 t3 tf =>
      intro j hj
      exact h j hj
    | deliver data t tf =>
      intro j hj
      have hj2 : j ∈ (vendor_webhook db data t tf).2 := hj
      rw [vendor_webhook_store] at hj2
      exact h j hj2

-- ------------------------------------------------------------------
-- Claim theorems.
-- ------------------------------------------------------------------

/-- Claim C5: sanitization is idempotent — applying clean_vendor_response
twice to any response dictionary yields the same result as applying it
once. -/
theorem c5_sanitizer_idempotent (d : PyDict) :
    clean_vendor_response (clean_vendor_response d) = clean_vendor_response d :=
  clean_idem_dict d

/-- Claim C4, counterexample: a sensitive key whose value is not a string is
not redacted.  The key "phone" is sensitive, yet the numeric value 12345
survives sanitization unchanged (only the isinstance(value, str) branch of
clean_vendor_response redacts), so the field keeps its original value in
the stored result, contradicting "every such field is redacted regardless
of the value's type". -/
theorem c4_nonstring_pii_counterexample :
    clean_vendor_response [("phone", PyVal.atom 12345)] = [("phone", PyVal.atom 12345)] ∧
    isSensitiveKey "phone" = true ∧
    PyVal.atom 12345 ≠ PyVal.str "[REDACTED]" :=
  ⟨rfl, rfl, fun h => PyVal.noConfusion h⟩

/-- Claim C4 (amended): at every position the sanitizer visits (the top-level
dict, nested dict values, and dict elements directly inside a list value),
no key containing "email", "phone", "ssn" or "password" (case-insensitive)
is left holding a string other than "[REDACTED]"; values of non-string,
non-container type are returned unchanged even under sensitive keys. -/
theorem c4_string_pii_redacted :
    (∀ d : PyDict, noSensStr (clean_vendor_response d) = true) ∧
    (∀ (key : String) (n : Int), cleanEntry key (PyVal.atom n) = PyVal.atom n) :=
  ⟨clean_noSensStr_dict, fun _ _ => rfl⟩

/-- Claim C10: sanitization preserves the full key structure — the output has
exactly the same keys as the input, in order, at every nesting level
(including dictionaries inside lists), no field is dropped, and any value
that is not a string, dict or list is returned unchanged (in particular
when its key contains no sensitive fragment). -/
theorem c10_structure_preserved :
    (∀ d : PyDict, keyStructEq d (clean_vendor_response d) = true) ∧
    (∀ (key : String) (n : Int), cleanEntry key (PyVal.atom n) = PyVal.atom n) :=
  ⟨clean_structEq_dict, fun _ _ => rfl⟩

/-- Claim C3: with quota N > 0 per 60-second window, starting from the clean
limiter state, every one of the first N admission attempts at instant t is
granted; the (N+1)-th attempt is denied and leaves the storage untouched at
any instant up to 60 seconds past the recorded admission time ⌊t⌋, so the
denial persists until the window rolls over; and an attempt strictly after
that moment is granted again. -/
theorem c3_rate_window_quota (N : Nat) (t t' t'' : ℚ) (hN : 0 < N)
    (h1 : t' ≤ ((⌊t⌋ : ℤ) : ℚ) + 60) (h2 : ((⌊t⌋ : ℤ) : ℚ) + 60 < t'') :
    (∀ k, k < N → (tryAcquire t N (iterAcquire t N k initialRateState)).1 = true) ∧
    tryAcquire t' N (iterAcquire t N N initialRateState)
      = (false, iterAcquire t N N initialRateState) ∧
    (tryAcquire t'' N (iterAcquire t N N initialRateState)).1 = true := by
  have hchar : iterAcquire t N N initialRateState = RateState.mk ((⌊t⌋ : ℤ) : ℚ) N := by
    obtain ⟨m, rfl⟩ : ∃ m, N = m + 1 := ⟨N - 1, by omega⟩
    exact iterAcquire_char t (m + 1) m (le_refl _)
  refine ⟨fun k hk => tryAcquire_granted t N k hk, ?_, ?_⟩
  · rw [hchar]
    exact tryAcquire_denied t' N _ N h1 (le_refl N)
  · rw [hchar]
    exact tryAcquire_after_roll t'' N _ N hN h2

/-- Witness for C3 at quota 1: the attempt at t = 100 is granted, the next
attempt is still denied at t' = 130 ≤ ⌊100⌋ + 60, and an attempt at
t'' = 200 > ⌊100⌋ + 60 is granted again. -/
theorem c3_rate_window_quota_witness :
    (0 : Nat) < 1 ∧
    (130 : ℚ) ≤ ((⌊(100 : ℚ)⌋ : ℤ) : ℚ) + 60 ∧
    ((⌊(100 : ℚ)⌋ : ℤ) : ℚ) + 60 < (200 : ℚ) ∧
    ((∀ k, k < 1 → (tryAcquire 100 1 (iterAcquire 100 1 k initialRateState)).1 = true) ∧
      tryAcquire 130 1 (iterAcquire 100 1 1 initialRateState)
        = (false, iterAcquire 100 1 1 initialRateState) ∧
      (tryAcquire 200 1 (iterAcquire 100 1 1 initialRateState)).1 = true) :=
  ⟨by decide, by norm_num, by norm_num,
    c3_rate_window_quota 1 100 130 200 (by decide) (by norm_num) (by norm_num)⟩

/-- Claim C9: for every sequence of limiter checks and guarded admissions
(an admission is recorded only after its check succeeded, as in
process_job's admission loop) with a positive configured limit, the
per-window counter requests_this_minute never exceeds the limit. -/
theorem c9_counter_never_exceeds_limit (rate_limit : Nat) (ops : List RLOp)
    (hpos : 0 < rate_limit) :
    (runRLOps rate_limit ops initialRateState).requests_this_minute ≤ rate_limit :=
  runRLOps_bound rate_limit ops initialRateState (Nat.zero_le rate_limit)

/-- Witness for C9: two admission attempts and a check against limit 1 leave
the counter at most 1. -/
theorem c9_counter_never_exceeds_limit_witness :
    (0 : Nat) < 1 ∧
    (runRLOps 1 [RLOp.acquire 100, RLOp.acquire 100, RLOp.check 200]
        initialRateState).requests_this_minute ≤ 1 :=
  ⟨by decide,
    c9_counter_never_exceeds_limit 1 [RLOp.acquire 100, RLOp.acquire 100, RLOp.check 200]
      (by decide)⟩

/-- Claim C1: for every job and every sequence of orchestration and webhook
steps, the status moves only along PENDING→PROCESSING→{COMPLETE,FAILED},
no field of a record changes once it is terminal, and a second attempt to
finalize it does not overwrite it.  This holds degenerately of this code:
every orchestration and webhook step leaves every job record completely
unchanged, because the updated_at stamp in DatabaseManager.update_job
raises ValidationError before update_one runs (database.py line 67) — so
no transition outside the chain, no terminal-field change and no overwrite
can ever occur (a finalization attempt is a store-level no-op whose
exception surfaces only inside the worker). -/
theorem c1_records_never_change (db : JobDB) (ops : List SysOp)
    (h : ∀ op ∈ ops, isOrchStep op = true) :
    runSysOps ops db = db := by
  induction ops generalizing db with
  | nil => rfl
  | cons op rest ih =>
    have hop := h op (List.mem_cons_self op rest)
    have hrest : ∀ op' ∈ rest, isOrchStep op' = true :=
      fun op' hx => h op' (List.mem_cons_of_mem op hx)
    show runSysOps rest (runSysOp db op) = db
    cases op with
    | create rid payload t => simp [isOrchStep] at hop
    | runJob rid vt res t1 t2 t3 tf =>
      show runSysOps rest db = db
      exact ih db hrest
    | deliver data t tf =>
      show runSysOps rest (vendor_webhook db data t tf).2 = db
      rw [vendor_webhook_store]
      exact ih db hrest

/-- Witness for C1: a store already holding a COMPLETE and a FAILED record
survives an orchestration run and a webhook delivery — one keyed to the
FAILED job's identifier — without any field changing. -/
theorem c1_records_never_change_witness :
    (∀ op ∈ [SysOp.runJob "a" VendorType.sync (CallResult.syncSuccess []) 3 4 5 6,
             SysOp.deliver [("response_id", PyVal.str "b")] 7 8],
        isOrchStep op = true) ∧
    runSysOps
        [SysOp.runJob "a" VendorType.sync (CallResult.syncSuccess []) 3 4 5 6,
         SysOp.deliver [("response_id", PyVal.str "b")] 7 8]
        [JobDocument.mk "a" JobStatus.complete [] (some []) none
           (some VendorType.sync) none 0 1,
         JobDocument.mk "b" JobStatus.failed [] none (some "x")
           (some VendorType.async) (some "tk") 0 2]
      = [JobDocument.mk "a" JobStatus.complete [] (some []) none
           (some VendorType.sync) none 0 1,
         JobDocument.mk "b" JobStatus.failed [] none (some "x")
           (some VendorType.async) (some "tk") 0 2] :=
  ⟨by decide,
    c1_records_never_change
      [JobDocument.mk "a" JobStatus.complete [] (some []) none
         (some VendorType.sync) none 0 1,
       JobDocument.mk "b" JobStatus.failed [] none (some "x")
         (some VendorType.async) (some "tk") 0 2]
      [SysOp.runJob "a" VendorType.sync (CallResult.syncSuccess []) 3 4 5 6,
       SysOp.deliver [("response_id", PyVal.str "b")] 7 8]
      (by decide)⟩

/-- Claim C2: the code does not locate the job by matching the callback token
against the stored vendor_response_id.  Failing input: the store holds job
"job1", PROCESSING, with vendor_response_id "tok9" (the correlation token
from the async submission acknowledgment); the callback carrying
response_id "tok9" arrives.  The claimed behavior would finalize "job1";
the code instead uses the token directly as a request_id ("For this demo,
we'll assume the response_id is the request_id"), matches nothing, and
leaves "job1" PROCESSING, untouched, while still answering accepted. -/
theorem c2_token_used_as_request_id :
    vendor_webhook
        [JobDocument.mk "job1" JobStatus.processing [] none none
          (some VendorType.async) (some "tok9") 0 3]
        [("response_id", PyVal.str "tok9"), ("status", PyVal.str "success")] 9 10
      = (WebhookIngress.accepted,
         [JobDocument.mk "job1" JobStatus.processing [] none none
           (some VendorType.async) (some "tok9") 0 3]) := rfl

/-- Claim C6: false of this code.  The claim says any orchestration error
leaves the job FAILED with str(e) recorded and nothing reaches the intake
caller.  Failing input: job "j1" created by intake, vendor call raising
"net down".  In the code the run's very first write raises ValidationError
at database.py line 67 (so the vendor is never even called), the except
clause's FAILED write raises the same way and is swallowed by
`except: pass`, and the worker re-raises the ValidationError: the job
stays PENDING with no error recorded.  (Intake's answer, the request_id,
was indeed produced before any of this.) -/
theorem c6_error_never_recorded :
    (create_job_endpoint [] "j1" [("k", PyVal.atom 1)] 0).2 = "j1" ∧
    process_job (create_job_endpoint [] "j1" [("k", PyVal.atom 1)] 0).1 "j1"
        VendorType.sync (CallResult.callError "net down") 1 2 3 4
      = ([JobDocument.mk "j1" JobStatus.pending [("k", PyVal.atom 1)]
            none none none none 0 0],
         some (PyError.validationError "payload: field required")) ∧
    (get_job (process_job (create_job_endpoint [] "j1" [("k", PyVal.atom 1)] 0).1 "j1"
        VendorType.sync (CallResult.callError "net down") 1 2 3 4).1 "j1").map
      (fun j => (j.status, j.error, j.result))
      = some (JobStatus.pending, none, none) :=
  ⟨rfl, rfl, rfl⟩

/-- Claim C7: delivering a callback whose (present, truthy) token matches no
job's stored correlation token never creates a job and never mutates any
existing record, and the ingress still reports acceptance to the external
caller.  In this code the dispatched task's store write always raises
before update_one (database.py line 67), so no delivered callback ever
creates or mutates anything — the store comes back unchanged — while a
present, truthy token is answered "accepted". -/
theorem c7_unknown_token_no_mutation (db : JobDB) (data : PyDict) (t tf : Nat)
    (v : PyVal) (hv : dictGet data "response_id" = some v)
    (htruthy : pyFalsy (some v) = false)
    (hnocorr : ∀ j ∈ db, corrTokenMatches v j = false) :
    vendor_webhook db data t tf = (WebhookIngress.accepted, db) := by
  unfold vendor_webhook
  rw [hv, if_neg (by simp [htruthy])]
  show (WebhookIngress.accepted, (handle_vendor_webhook db v data t tf).1)
    = (WebhookIngress.accepted, db)
  rfl

/-- Witness for C7: token "zzz" matches neither job's correlation token (one
of the jobs even has "zzz" as its request_id); the store is unchanged and
the ingress answers accepted. -/
theorem c7_unknown_token_no_mutation_witness :
    dictGet [("response_id", PyVal.str "zzz")] "response_id" = some (PyVal.str "zzz") ∧
    pyFalsy (some (PyVal.str "zzz")) = false ∧
    (∀ j ∈ [JobDocument.mk "job1" JobStatus.processing [] none none none (some "tokA") 0 1,
            JobDocument.mk "zzz" JobStatus.processing [] none none none none 0 2],
        corrTokenMatches (PyVal.str "zzz") j = false) ∧
    vendor_webhook
        [JobDocument.mk "job1" JobStatus.processing [] none none none (some "tokA") 0 1,
         JobDocument.mk "zzz" JobStatus.processing [] none none none none 0 2]
        [("response_id", PyVal.str "zzz")] 5 6
      = (WebhookIngress.accepted,
         [JobDocument.mk "job1" JobStatus.processing [] none none none (some "tokA") 0 1,
          JobDocument.mk "zzz" JobStatus.processing [] none none none none 0 2]) :=
  ⟨rfl, rfl, by decide,
    c7_unknown_token_no_mutation
      [JobDocument.mk "job1" JobStatus.processing [] none none none (some "tokA") 0 1,
       JobDocument.mk "zzz" JobStatus.processing [] none none none none 0 2]
      [("response_id", PyVal.str "zzz")] 5 6 (PyVal.str "zzz") rfl rfl (by decide)⟩

/-- Claim C8: in every reachable job record, result and error are never both
present, and both are absent while the status is non-terminal.  Holds
degenerately of this code: since no update ever lands (database.py line
67), every record reachable from the empty store through intake creations,
orchestration runs and webhook deliveries is the pristine PENDING document
with neither field present. -/
theorem c8_result_error_discipline (ops : List SysOp) (j : JobDocument)
    (hj : j ∈ runSysOps ops []) :
    resultErrorOk j = true ∧ j.result = none ∧ j.error = none ∧
    j.status = JobStatus.pending := by
  have h := runSysOps_pristine ops []
    (by intro x hx; exact absurd hx (List.not_mem_nil x)) j hj
  obtain ⟨h1, h2, h3⟩ := h
  refine ⟨?_, h1, h2, h3⟩
  simp [resultErrorOk, h1, h2, h3]

/-- Witness for C8: the record created by intake, after a failing run and a
webhook delivery keyed to it, still satisfies the discipline (it is
pristine). -/
theorem c8_result_error_discipline_witness :
    (JobDocument.mk "j1" JobStatus.pending [] none none none none 0 0
        ∈ runSysOps
            [SysOp.create "j1" [] 0,
             SysOp.runJob "j1" VendorType.sync (CallResult.callError "boom") 1 2 3 4,
             SysOp.deliver [("response_id", PyVal.str "j1")] 9 10] []) ∧
    (resultErrorOk (JobDocument.mk "j1" JobStatus.pending [] none none none none 0 0) = true ∧
     (JobDocument.mk "j1" JobStatus.pending [] none none none none 0 0).result = none ∧
     (JobDocument.mk "j1" JobStatus.pending [] none none none none 0 0).error = none ∧
     (JobDocument.mk "j1" JobStatus.pending [] none none none none 0 0).status
       = JobStatus.pending) := by
  have pf : JobDocument.mk "j1" JobStatus.pending [] none none none none 0 0
      ∈ runSysOps
          [SysOp.create "j1" [] 0,
           SysOp.runJob "j1" VendorType.sync (CallResult.callError "boom") 1 2 3 4,
           SysOp.deliver [("response_id", PyVal.str "j1")] 9 10] [] := by
    show JobDocument.mk "j1" JobStatus.pending [] none none none none 0 0
        ∈ [JobDocument.mk "j1" JobStatus.pending [] none none none none 0 0]
    exact List.mem_cons_self _ _
  exact ⟨pf, c8_result_error_discipline _ _ pf⟩

end MultiVendor
